import Mathlib

/-!
Shallow embedding of the scrcpy session logic of `adb_runner.py`
(class `ScrcpyEmbedWindow` and the module-level helper `execute_command`),
together with proofs of the claims made by the specification.

Text lines are modelled as `List Char`; Python string primitives used by
the source (`split`, `strip`, `in`, `int(...)`) are re-implemented as
structurally recursive functions so that every definition is executable
and kernel-reducible.  Python floats are modelled as exact rationals;
Python `int(...)` applied to a nonnegative product is truncation toward
zero, modelled with `Int.tdiv` on numerator and denominator of the rational.
-/

/-- A line of process output, as a list of characters. -/
abbrev Line : Type := List Char

/-- Python `str.strip()` whitespace test, specialised to the characters
that actually occur in the output lines of the program. -/
def is_py_space (c : Char) : Bool := c.isWhitespace

/-- Drop leading whitespace: the first half of Python `str.strip()`. -/
def drop_leading_ws (s : Line) : Line := s.dropWhile is_py_space

/-- Python `str.strip()`: remove leading and trailing whitespace. -/
def strip_chars (s : Line) : Line :=
  (drop_leading_ws ((drop_leading_ws s.reverse).reverse))

/-- Python `sep in s` substring test (for a nonempty separator). -/
def contains_sub (pat : Line) : Line → Bool
  | [] => pat.isEmpty
  | c :: t => List.isPrefixOf pat (c :: t) || contains_sub pat t

/-- Python `s.split(sep)` for a single-character separator `sep`
(the source only splits on `":"` and `'x'`). -/
def split_on_char (sep : Char) : Line → List Line
  | [] => [[]]
  | c :: t =>
    if c = sep then
      [] :: split_on_char sep t
    else
      match split_on_char sep t with
      | [] => [[c]]
      | p :: ps => (c :: p) :: ps

/-- Digit run of a candidate integer literal: `some n` when the run is
nonempty and all digits. -/
def parse_digits : Line → Option Nat
  | [] => none
  | [c] => if c.isDigit then some (c.toNat - '0'.toNat) else none
  | c :: t =>
    if c.isDigit then
      (parse_digits t).map (fun n => (c.toNat - '0'.toNat) * 10 ^ t.length + n)
    else none

/-- Python `int(s)` on a string: surrounding whitespace is ignored, an
optional sign precedes the digits.  (Python also accepts underscore
digit separators; no resolution line of the program uses them.) -/
def parse_py_int (s : Line) : Option Int :=
  match strip_chars s with
  | '-' :: t => (parse_digits t).map (fun n => -(n : Int))
  | '+' :: t => (parse_digits t).map (fun n => (n : Int))
  | t => (parse_digits t).map (fun n => (n : Int))

/-- The diagnostic marker the queue tick looks for in each output line. -/
def texture_marker : Line := "INFO: Texture:".data

/-- A single-quote character, used to build messages that quote values. -/
def squote : Char := '\''

/-- The resolution parse performed by `_check_output_queue`:
`resolution = line.split(":")[-1].strip()` followed by
`width, height = map(int, resolution.split('x'))`.  `none` models the
`(ValueError, IndexError)` branch that silently ignores the line. -/
def parse_resolution (line : Line) : Option (Int × Int) :=
  let resolution := strip_chars ((split_on_char ':' line).getLastD [])
  match split_on_char 'x' resolution with
  | [wstr, hstr] =>
    match parse_py_int wstr, parse_py_int hstr with
    | some w, some h => some (w, h)
    | _, _ => none
  | _ => none

/-- State touched by the output-log sink: the optional aspect ratio and
the lines appended to the visible log widget. -/
structure SinkState where
  aspect_ratio : Option ℚ
  log : List Line
deriving DecidableEq

/-- Python truthiness of `self.aspect_ratio`: `None` and `0.0` are falsy. -/
def aspect_truthy : Option ℚ → Bool
  | none => false
  | some r => decide (r ≠ 0)

/-- Processing of a single dequeued line by `_check_output_queue`: the
line is appended to the log unconditionally; then, when the line contains
the texture marker and `aspect_ratio` is falsy, the resolution is parsed
and, if the parsed height is positive, `aspect_ratio` is set to
`width / height`. -/
def process_line (st : SinkState) (line : Line) : SinkState :=
  let st1 : SinkState := { st with log := st.log ++ [line] }
  if contains_sub texture_marker line && !aspect_truthy st1.aspect_ratio then
    match parse_resolution line with
    | some (w, h) =>
      if 0 < h then { st1 with aspect_ratio := some ((w : ℚ) / (h : ℚ)) }
      else st1
    | none => st1
  else st1

/-- Draining a batch of queued lines, in FIFO order. -/
def drain (st : SinkState) (lines : List Line) : SinkState :=
  lines.foldl process_line st

/-- The sink state before any line has been consumed. -/
def init_sink : SinkState := { aspect_ratio := none, log := [] }

/-- The sink state after the queue ticks have consumed a given sequence
of output lines. -/
def process_all (lines : List Line) : SinkState := drain init_sink lines

/-- Whole-system state for the producer / queue / consumer loop:
the sequence produced so far, the lines still queued, and the sink. -/
structure SysState where
  produced : List Line
  queue : List Line
  sink : SinkState

/-- An event of the output pipeline: the background reader enqueues one
line (`produce`), or the 100 ms UI tick drains everything currently
queued (`tick`). -/
inductive Ev
  | produce (l : Line)
  | tick

/-- One event step: `produce` appends to the FIFO queue (and to the
ghost `produced` trace); `tick` runs `_check_output_queue`, which loops
until the queue is empty, handing each line to `process_line`. -/
def step_ev (s : SysState) : Ev → SysState
  | .produce l => { s with produced := s.produced ++ [l], queue := s.queue ++ [l] }
  | .tick => { s with queue := [], sink := drain s.sink s.queue }

/-- The initial pipeline state. -/
def init_sys : SysState := { produced := [], queue := [], sink := init_sink }

/-- Running a sequence of pipeline events from the initial state. -/
def run_events (evs : List Ev) : SysState := evs.foldl step_ev init_sys

/-- Python `int(x)` applied to the (exactly represented) product
`pane_height * aspect_ratio`: truncation toward zero. -/
def py_trunc (q : ℚ) : Int := Int.tdiv q.num (q.den : Int)

/-- Model of `_adjust_aspect_ratio`: returns the sash position it applies, or
`none` when it returns without applying one (falsy `aspect_ratio`, or a
container height `≤ 1`, in which case it only reschedules itself). -/
def adjust_aspect_ratio (ratio : Option ℚ) (pane_height total_width : Int) :
    Option Int :=
  match ratio with
  | none => none
  | some a =>
    if a = 0 then none
    else if pane_height ≤ 1 then none
    else
      let ideal_mirror_width := py_trunc ((pane_height : ℚ) * a)
      let new_sash_pos := total_width - ideal_mirror_width
      let min_output_width : Int := 250
      let s1 := if new_sash_pos < min_output_width then min_output_width
                else new_sash_pos
      let s2 := if s1 > total_width - min_output_width then
                  total_width - min_output_width
                else s1
      some s2

/-- Outcome of the `subprocess.Popen` + `communicate` pair inside
`execute_command`: the command completed with a return code and two
output streams, or raised `FileNotFoundError`, or raised some other
exception carrying a message. -/
inductive SpawnOutcome
  | completed (returncode : Int) (out err : Line)
  | file_not_found
  | raised (msg : Line)
deriving DecidableEq

/-- Module-level `execute_command`: total over its error model, always
returning a `(success, output)` pair. -/
def execute_command (outcome : SpawnOutcome) : Bool × Line :=
  match outcome with
  | .completed returncode out err =>
    if returncode ≠ 0 then
      let output := out ++ err
      if contains_sub "device not found".data output then
        (false, "Error: Device not found.".data)
      else if contains_sub "* daemon not running".data output then
        (false, "ADB daemon is not responding. Please wait...".data)
      else
        (false, "Error executing command:\n".data ++ strip_chars output)
    else
      (true, strip_chars (out ++ err))
  | .file_not_found =>
    (false, ("Error: Command or executable not found. Check your system".data ++ [squote] ++ "s PATH.".data))
  | .raised msg =>
    (false, "An unexpected error occurred: ".data ++ msg)

/-- Recording-related session state of `ScrcpyEmbedWindow`.
`recording_process = some live` models a stored `Popen` handle whose
`poll() is None` test yields `live`; `none` models the `None` handle. -/
structure RecSession where
  udid : Line
  is_recording : Bool
  recording_process : Option Bool
  recording_device_path : Line
  record_button_enabled : Bool
  screenshot_button_enabled : Bool
deriving DecidableEq

/-- Test `self.recording_process and self.recording_process.poll() is None`. -/
def live_recording (st : RecSession) : Bool :=
  match st.recording_process with
  | some live => live
  | none => false

/-- Observable actions performed by the recording / shutdown code:
log lines pushed to the output queue, signals sent to the recording
process, blocking waits and sleeps, device-bridge command invocations,
and the mirror-process / window teardown steps. -/
inductive Act
  | log (l : Line)
  | kill_recording
  | wait_recording (timeout : Nat)
  | settle_sleep (secs : Nat)
  | exec_cmd (cmd : Line)
  | terminate_mirror
  | wait_mirror (timeout : Nat)
  | kill_mirror
  | destroy_window
  | schedule_embed (hwnd : Nat)
deriving DecidableEq

/-- Colon replaced by dash, as in `self.udid.replace` with those arguments. -/
def colon_to_dash (c : Char) : Char := if c = ':' then '-' else c

/-- Model of `Path(self.recording_device_path).name`: the basename. -/
def path_basename (p : Line) : Line := (split_on_char '/' p).getLastD []

/-- The local file the recording is pulled to:
`recordings_dir / f"(udid with colons dashed)_(basename)"`, relative to
the application directory. -/
def local_recording_target (st : RecSession) : Line :=
  "recordings/".data ++ st.udid.map colon_to_dash ++ "_".data ++
    path_basename st.recording_device_path

/-- The `adb pull` command built by `_stop_recording_thread`. -/
def pull_cmd (st : RecSession) : Line :=
  "adb -s ".data ++ st.udid ++ " pull ".data ++ st.recording_device_path ++
    " \"".data ++ local_recording_target st ++ "\"".data

/-- The `adb shell rm` cleanup command built by `_stop_recording_thread`. -/
def rm_cmd (st : RecSession) : Line :=
  "adb -s ".data ++ st.udid ++ " shell rm ".data ++ st.recording_device_path

def stopping_msg : Line := "INFO: Stopping recording...\n".data

def no_active_msg : Line :=
  "ERROR: No active recording process found to stop.\n".data

def stopped_msg : Line := "INFO: Recording process stopped.\n".data

def saving_msg : Line := "INFO: Now trying to save the file...\n".data

def timeout_warn_msg : Line :=
  "WARNING: Recording process did not stop in time, killing it forcefully.\n".data

def stop_error_msg (e : Line) : Line :=
  "ERROR: An error occurred while stopping the recording: ".data ++ e ++ "\n".data

def pull_fail_rec_msg (out : Line) : Line :=
  "ERROR: Failed to pull recording.\n".data ++ out ++ "\n".data

def pull_ok_rec_msg (st : RecSession) : Line :=
  "SUCCESS: Recording saved to ".data ++ local_recording_target st ++ "\n".data

def closing_stop_msg : Line :=
  "INFO: Window closing, stopping active recording...\n".data

def terminating_msg : Line := "INFO: Terminating scrcpy process...\n".data

/-- Model of `_update_recording_ui`: run on the UI thread; `false` returns the
session to the idle configuration, clearing the process handle and the
remote path and re-enabling the record control. -/
def update_recording_ui (st : RecSession) (is_rec : Bool) : RecSession :=
  if is_rec then
    { st with is_recording := true, record_button_enabled := true }
  else
    { st with is_recording := false, record_button_enabled := true,
              recording_process := none, recording_device_path := [] }

/-- How the `kill` / `wait(timeout=10)` block of `_stop_recording_thread`
resolves: normally, by `TimeoutExpired`, or by some other exception. -/
inductive WaitOutcome
  | ok
  | timed_out
  | error (msg : Line)
deriving DecidableEq

/-- Environment of one run of `_stop_recording_thread`: how the wait
resolves and what the pull command returns. -/
structure StopEnv where
  wait_outcome : WaitOutcome
  pull_ok : Bool
  pull_out : Line

/-- Model of `_stop_recording_thread`: the new session state together with the
ordered trace of actions it performs. -/
def stop_recording_thread (st : RecSession) (env : StopEnv) :
    RecSession × List Act :=
  if live_recording st then
    let kill_acts : List Act :=
      match env.wait_outcome with
      | .ok =>
        [Act.kill_recording, Act.wait_recording 10,
         Act.log stopped_msg, Act.log saving_msg]
      | .timed_out =>
        [Act.kill_recording, Act.wait_recording 10,
         Act.log timeout_warn_msg, Act.kill_recording]
      | .error m =>
        [Act.kill_recording, Act.wait_recording 10,
         Act.log (stop_error_msg m), Act.kill_recording]
    let pull_acts : List Act :=
      [Act.settle_sleep 2, Act.exec_cmd (pull_cmd st),
       Act.log (if env.pull_ok then pull_ok_rec_msg st
                   else pull_fail_rec_msg env.pull_out),
       Act.exec_cmd (rm_cmd st)]
    (update_recording_ui st false,
     Act.log stopping_msg :: kill_acts ++ pull_acts)
  else
    (update_recording_ui st false,
     [Act.log stopping_msg, Act.log no_active_msg])

/-- The device-side path generated by `_start_recording_thread`. -/
def device_recording_path (timestamp : Line) : Line :=
  "/sdcard/recording_".data ++ timestamp ++ ".mp4".data

def start_rec_msg (st : RecSession) : Line :=
  "INFO: Starting recording...\n> adb -s ".data ++ st.udid ++
    " shell screenrecord ".data ++ st.recording_device_path ++ "\n".data

def start_fail_msg (e : Line) : Line :=
  "ERROR: Failed to start recording process.\n".data ++ e ++ "\n".data

/-- Environment of one run of `_start_recording_thread`: the timestamp
used for the remote file name and whether `Popen` raises. -/
structure StartEnv where
  timestamp : Line
  spawn_ok : Bool
  spawn_err : Line

/-- Model of `_start_recording_thread`: sets the remote path first, then spawns
the capture process; on success the UI is updated to the recording
configuration, on spawn failure only the record control is re-enabled
(the already-written remote path is left behind). -/
def start_recording_thread (st : RecSession) (env : StartEnv) :
    RecSession × List Act :=
  let st1 : RecSession :=
    { st with recording_device_path := device_recording_path env.timestamp }
  if env.spawn_ok then
    (update_recording_ui { st1 with recording_process := some true } true,
     [Act.log (start_rec_msg st1)])
  else
    ({ st1 with record_button_enabled := true },
     [Act.log (start_rec_msg st1), Act.log (start_fail_msg env.spawn_err)])

/-- Environment of a close request: how the recording stop resolves (if
one runs), whether the mirror process is still live, and whether its
graceful wait times out. -/
structure CloseEnv where
  stop_env : StopEnv
  mirror_live : Bool
  mirror_wait_times_out : Bool

/-- Model of `final_close_actions` inside `_on_close`: graceful-then-forceful
mirror-process termination, then window disposal. -/
def final_close_actions (mirror_live mirror_wait_times_out : Bool) :
    List Act :=
  (if mirror_live then
    [Act.log terminating_msg, Act.terminate_mirror, Act.wait_mirror 2]
      ++ (if mirror_wait_times_out then [Act.kill_mirror] else [])
   else []) ++ [Act.destroy_window]

/-- The control disabling `_on_close` performs before spawning the
stop-and-close thread. -/
def disable_controls (st : RecSession) : RecSession :=
  { st with record_button_enabled := false,
            screenshot_button_enabled := false }

/-- Model of `_on_close`: given the current `_is_closing` flag and session state,
returns the new flag, the new session state, and the ordered action
trace.  A repeated close request is ignored; with an active recording
the full stop sequence runs before the final close actions; otherwise
the final close actions run immediately. -/
def on_close (is_closing : Bool) (st : RecSession) (env : CloseEnv) :
    Bool × RecSession × List Act :=
  if is_closing then (true, st, [])
  else if st.is_recording then
    let sr := stop_recording_thread (disable_controls st) env.stop_env
    (true, sr.1,
     Act.log closing_stop_msg :: sr.2 ++
       final_close_actions env.mirror_live env.mirror_wait_times_out)
  else
    (true, st, final_close_actions env.mirror_live env.mirror_wait_times_out)

/-- Number of registry polls `_find_and_embed_window` performs: it polls,
sleeps 0.2 s, and re-checks `time.time() - start_time < 15`, so polls
happen at elapsed times 0.0, 0.2, ..., 14.8 — 75 of them. -/
def max_find_polls : Nat := 75

/-- The polling loop of `_find_and_embed_window`: `polls i` is what
`win32gui.FindWindow` returns at the i-th poll (`none` = no window).
Returns the handle found together with the index of the successful poll. -/
def find_from (polls : Nat → Option Nat) (i : Nat) : Nat → Option (Nat × Nat)
  | 0 => none
  | fuel + 1 =>
    match polls i with
    | some hwnd => some (hwnd, i)
    | none => find_from polls (i + 1) fuel

def could_not_find_msg (title : Line) : Line :=
  "ERROR: Could not find scrcpy window with title ".data ++ [squote] ++
    title ++ [squote] ++ " in time.\n".data

/-- Model of `_find_and_embed_window`: on success schedules the embed step on the
UI thread and returns immediately; on timeout it emits exactly one
error line and does nothing else (no embed, no process signal). -/
def find_and_embed_window (title : Line) (polls : Nat → Option Nat) :
    List Act :=
  match find_from polls 0 max_find_polls with
  | some (hwnd, _) => [Act.schedule_embed hwnd]
  | none => [Act.log (could_not_find_msg title)]

/-- A resolution line that would fix a nonzero aspect ratio: it carries
the texture marker and parses to a positive height and a nonzero width. -/
def is_valid_nonzero_res (line : Line) : Bool :=
  contains_sub texture_marker line &&
    match parse_resolution line with
    | some (w, h) => decide (0 < h) && decide (w ≠ 0)
    | none => false

/-- The invariant claimed by the spec: the remote recording path is
non-empty exactly when the session is recording. -/
def path_iff_recording (st : RecSession) : Prop :=
  st.recording_device_path ≠ [] ↔ st.is_recording = true

/-- Scenario line with a zero width (and positive height). -/
def line_zero_res : Line := "INFO: Texture: 0x2400".data

/-- The scenario resolution line from the specification. -/
def line_real_res : Line := "INFO: Texture: 1080x2400".data

def sample_udid : Line := "emulator-5554".data

/-- A session in the middle of a live recording. -/
def st_live : RecSession :=
  { udid := sample_udid, is_recording := true, recording_process := some true,
    recording_device_path := "/sdcard/recording_20240101_120000.mp4".data,
    record_button_enabled := false, screenshot_button_enabled := true }

/-- A session whose capture process has already exited on its own. -/
def st_dead : RecSession :=
  { st_live with recording_process := some false }

/-- An idle session. -/
def st_idle : RecSession :=
  { udid := sample_udid, is_recording := false, recording_process := none,
    recording_device_path := [], record_button_enabled := true,
    screenshot_button_enabled := true }

def env_stop_ok : StopEnv :=
  { wait_outcome := .ok, pull_ok := true, pull_out := [] }

def env_stop_pull_fails : StopEnv :=
  { wait_outcome := .ok, pull_ok := false, pull_out := "io error".data }

def env_start_ok : StartEnv :=
  { timestamp := "20240101_120000".data, spawn_ok := true, spawn_err := [] }

def env_start_fails : StartEnv :=
  { timestamp := "20240101_120000".data, spawn_ok := false,
    spawn_err := "adb not found".data }

def env_close_sample : CloseEnv :=
  { stop_env := env_stop_pull_fails, mirror_live := true,
    mirror_wait_times_out := false }

def sample_title : Line := "scrcpy_1700000000000".data

/-- A window registry in which the tagged window never appears. -/
def polls_never (_ : Nat) : Option Nat := none

/-- A window registry in which the tagged window appears at poll 3
with handle 42. -/
def polls_at_three (i : Nat) : Option Nat := if i = 3 then some 42 else none

/-! ## Helper lemmas -/

theorem process_line_log (st : SinkState) (l : Line) :
    (process_line st l).log = st.log ++ [l] := by
  simp only [process_line]
  split
  · split
    · split <;> rfl
    · rfl
  · rfl

theorem process_line_ratio_of_truthy (st : SinkState) (l : Line)
    (h : aspect_truthy st.aspect_ratio = true) :
    (process_line st l).aspect_ratio = st.aspect_ratio := by
  simp [process_line, h]

theorem drain_ratio_of_truthy (ls : List Line) (st : SinkState)
    (h : aspect_truthy st.aspect_ratio = true) :
    (drain st ls).aspect_ratio = st.aspect_ratio := by
  induction ls generalizing st with
  | nil => rfl
  | cons l t ih =>
    have h1 := process_line_ratio_of_truthy st l h
    have h2 : aspect_truthy (process_line st l).aspect_ratio = true := by
      rw [h1]; exact h
    calc (drain st (l :: t)).aspect_ratio
        = (drain (process_line st l) t).aspect_ratio := rfl
      _ = (process_line st l).aspect_ratio := ih (process_line st l) h2
      _ = st.aspect_ratio := h1

theorem drain_ratio_stable (ls : List Line) (st : SinkState) (r : ℚ)
    (hst : st.aspect_ratio = some r) (hr : r ≠ 0) :
    (drain st ls).aspect_ratio = some r := by
  have ht : aspect_truthy st.aspect_ratio = true := by
    simp [aspect_truthy, hst, hr]
  rw [drain_ratio_of_truthy ls st ht, hst]

theorem process_line_sets (st : SinkState) (l : Line) (w h : Int)
    (hm : contains_sub texture_marker l = true)
    (hp : parse_resolution l = some (w, h)) (hh : 0 < h)
    (hf : aspect_truthy st.aspect_ratio = false) :
    (process_line st l).aspect_ratio = some ((w : ℚ) / (h : ℚ)) := by
  simp [process_line, hm, hf, hp, hh]

theorem process_line_falsy (st : SinkState) (l : Line)
    (hl : is_valid_nonzero_res l = false)
    (hf : aspect_truthy st.aspect_ratio = false) :
    aspect_truthy (process_line st l).aspect_ratio = false := by
  cases hm : contains_sub texture_marker l with
  | false => simp [process_line, hm, hf]
  | true =>
    rcases hpr : parse_resolution l with _ | ⟨w, h⟩
    · simp [process_line, hm, hf, hpr]
    · by_cases hh : 0 < h
      · have hw : w = 0 := by
          have h0 := hl
          simp [is_valid_nonzero_res, hm, hpr, hh] at h0
          exact h0
        subst hw
        have hset : (process_line st l).aspect_ratio =
            some (((0 : ℤ) : ℚ) / (h : ℚ)) :=
          process_line_sets st l 0 h hm hpr hh hf
        rw [hset]
        simp [aspect_truthy, zero_div]
      · simp [process_line, hm, hf, hpr, hh]

theorem drain_falsy (ls : List Line) (st : SinkState)
    (hall : ∀ l ∈ ls, is_valid_nonzero_res l = false)
    (hf : aspect_truthy st.aspect_ratio = false) :
    aspect_truthy (drain st ls).aspect_ratio = false := by
  induction ls generalizing st with
  | nil => exact hf
  | cons l t ih =>
    exact ih (process_line st l)
      (fun x hx => hall x (List.mem_cons_of_mem _ hx))
      (process_line_falsy st l (hall l (List.mem_cons_self _ _)) hf)

theorem drain_log (ls : List Line) (st : SinkState) :
    (drain st ls).log = st.log ++ ls := by
  induction ls generalizing st with
  | nil => simp [drain]
  | cons l t ih =>
    calc (drain st (l :: t)).log
        = (drain (process_line st l) t).log := rfl
      _ = (process_line st l).log ++ t := ih (process_line st l)
      _ = st.log ++ l :: t := by rw [process_line_log]; simp

theorem run_events_inv (evs : List Ev) :
    (run_events evs).sink.log ++ (run_events evs).queue =
      (run_events evs).produced := by
  induction evs using List.reverseRecOn with
  | nil => rfl
  | append_singleton t e ih =>
    have hrun : run_events (t ++ [e]) = step_ev (run_events t) e := by
      simp [run_events, List.foldl_append]
    rw [hrun]
    cases e with
    | produce l =>
      simp only [step_ev]
      rw [← List.append_assoc, ih]
    | tick =>
      simp only [step_ev]
      rw [drain_log, List.append_nil, ih]

theorem py_trunc_intCast (n : ℤ) : py_trunc ((n : ℤ) : ℚ) = n := by
  simp [py_trunc, Rat.num_intCast, Rat.den_intCast, Int.tdiv_one]

theorem adjust_closed_form (a : ℚ) (H W : Int) (ha : a ≠ 0) (hH : 1 < H) :
    adjust_aspect_ratio (some a) H W =
      some (min (max (W - py_trunc ((H : ℚ) * a)) 250) (W - 250)) := by
  simp only [adjust_aspect_ratio, if_neg ha, if_neg (not_le.mpr hH)]
  congr 1
  generalize py_trunc ((H : ℚ) * a) = t
  split_ifs <;> omega

/-! ## Claim theorems -/

/-- Claim C1, counterexample: the aspect ratio is not write-once.  The
line `INFO: Texture: 0x2400` is the first line that carries the marker
and parses as WIDTHxHEIGHT with height > 0; it sets `aspect_ratio` to
`0/2400`, but because `not self.aspect_ratio` is also true for `0.0`,
the later resolution line `INFO: Texture: 1080x2400` changes it. -/
theorem aspect_ratio_not_write_once_at_zero :
    contains_sub texture_marker line_zero_res = true ∧
    parse_resolution line_zero_res = some (0, 2400) ∧
    (process_all [line_zero_res]).aspect_ratio =
      some (((0 : ℤ) : ℚ) / ((2400 : ℤ) : ℚ)) ∧
    contains_sub texture_marker line_real_res = true ∧
    parse_resolution line_real_res = some (1080, 2400) ∧
    (process_all [line_zero_res, line_real_res]).aspect_ratio ≠
      some (((0 : ℤ) : ℚ) / ((2400 : ℤ) : ℚ)) := by
  have h1 : (process_all [line_zero_res]).aspect_ratio =
      some (((0 : ℤ) : ℚ) / ((2400 : ℤ) : ℚ)) :=
    process_line_sets init_sink line_zero_res 0 2400 (by decide) (by decide)
      (by decide) rfl
  refine ⟨by decide, by decide, h1, by decide, by decide, ?_⟩
  have hf : aspect_truthy (process_all [line_zero_res]).aspect_ratio = false := by
    rw [h1]
    simp [aspect_truthy, zero_div]
  have h2 : (process_all [line_zero_res, line_real_res]).aspect_ratio =
      some (((1080 : ℤ) : ℚ) / ((2400 : ℤ) : ℚ)) :=
    process_line_sets (process_all [line_zero_res]) line_real_res 1080 2400
      (by decide) (by decide) (by decide) hf
  rw [h2]
  intro hcontra
  rw [Option.some.injEq] at hcontra
  norm_num at hcontra

/-- Claim C1, amended: the first marker line that parses as
WIDTHxHEIGHT with height > 0 and width ≠ 0 sets `aspect_ratio` to
`width/height`, and no later resolution line ever changes it. -/
theorem aspect_ratio_first_nonzero_resolution_wins
    (pre post : List Line) (line : Line) (w h : Int)
    (hm : contains_sub texture_marker line = true)
    (hp : parse_resolution line = some (w, h))
    (hh : 0 < h) (hw : w ≠ 0)
    (hpre : ∀ l ∈ pre, is_valid_nonzero_res l = false) :
    (process_all (pre ++ line :: post)).aspect_ratio =
      some ((w : ℚ) / (h : ℚ)) := by
  have hfalsy : aspect_truthy (drain init_sink pre).aspect_ratio = false :=
    drain_falsy pre init_sink hpre rfl
  have hset : (process_line (drain init_sink pre) line).aspect_ratio =
      some ((w : ℚ) / (h : ℚ)) :=
    process_line_sets _ line w h hm hp hh hfalsy
  have hne : ((w : ℚ) / (h : ℚ)) ≠ 0 :=
    div_ne_zero (Int.cast_ne_zero.mpr hw)
      (ne_of_gt (by exact_mod_cast hh))
  have hsplit : process_all (pre ++ line :: post) =
      drain (process_line (drain init_sink pre) line) post := by
    simp [process_all, drain, List.foldl_append]
  rw [hsplit]
  exact drain_ratio_stable post _ _ hset hne

/-- Witness for the amended C1 at the scenario line of the specification. -/
theorem aspect_ratio_first_nonzero_resolution_wins_witness :
    contains_sub texture_marker line_real_res = true ∧
    parse_resolution line_real_res = some (1080, 2400) ∧
    (0 : ℤ) < 2400 ∧ (1080 : ℤ) ≠ 0 ∧
    (process_all [line_real_res]).aspect_ratio =
      some (((1080 : ℤ) : ℚ) / ((2400 : ℤ) : ℚ)) :=
  ⟨by decide, by decide, by decide, by decide,
   aspect_ratio_first_nonzero_resolution_wins [] [] line_real_res 1080 2400
     (by decide) (by decide) (by decide) (by decide) (by simp)⟩

/-- Claim C7: under any interleaving of producer enqueues and UI ticks,
the log plus the still-queued lines equal the produced sequence (same
order, nothing lost, nothing duplicated), and one further tick flushes
the log to exactly the produced sequence. -/
theorem output_lines_delivered_exactly_once_in_order (evs : List Ev) :
    (run_events evs).sink.log ++ (run_events evs).queue =
      (run_events evs).produced ∧
    (run_events (evs ++ [Ev.tick])).sink.log = (run_events evs).produced := by
  refine ⟨run_events_inv evs, ?_⟩
  have hrun : run_events (evs ++ [Ev.tick]) = step_ev (run_events evs) Ev.tick := by
    simp [run_events, List.foldl_append]
  rw [hrun]
  simp only [step_ev]
  rw [drain_log, run_events_inv evs]

/-- Claim C8: the end-to-end scenario of the specification.  `INFO: Texture: 1080x2400`
parses to (1080, 2400) and sets the aspect ratio to 1080/2400 = 9/20
(= 0.45); with container height 800 the ideal mirror width is 360; with
total width 1000 the applied split position is 640 = 1000 - 360, which
already lies within [250, 750], so neither clamp fires. -/
theorem texture_scenario_values :
    parse_resolution line_real_res = some (1080, 2400) ∧
    (process_all [line_real_res]).aspect_ratio =
      some (((1080 : ℤ) : ℚ) / ((2400 : ℤ) : ℚ)) ∧
    ((1080 : ℚ) / 2400) = 9 / 20 ∧
    py_trunc (((800 : ℤ) : ℚ) * ((1080 : ℚ) / 2400)) = 360 ∧
    adjust_aspect_ratio (some ((1080 : ℚ) / 2400)) 800 1000 = some 640 ∧
    (640 : ℤ) = 1000 - 360 ∧ (250 : ℤ) ≤ 640 ∧ (640 : ℤ) ≤ 1000 - 250 := by
  have hmul : ((800 : ℤ) : ℚ) * ((1080 : ℚ) / 2400) = ((360 : ℤ) : ℚ) := by
    push_cast
    norm_num
  have htr : py_trunc (((800 : ℤ) : ℚ) * ((1080 : ℚ) / 2400)) = 360 := by
    rw [hmul, py_trunc_intCast]
  refine ⟨by decide, ?_, by norm_num, htr, ?_, by decide, by decide, by decide⟩
  · exact process_line_sets init_sink line_real_res 1080 2400 (by decide)
      (by decide) (by decide) rfl
  · rw [adjust_closed_form _ _ _ (by norm_num) (by decide), htr]
    decide

/-- Claim C2, counterexample: with total width 300 (below 500), height
800 and aspect ratio 2, the applied split position is 50, which does not
lie in the (empty) interval [250, 300 - 250]. -/
theorem sash_clamp_violated_below_min_total_width :
    adjust_aspect_ratio (some 2) 800 300 = some 50 ∧
    ¬ ((250 : ℤ) ≤ 50 ∧ (50 : ℤ) ≤ 300 - 250) := by
  constructor
  · rw [adjust_closed_form 2 800 300 (by decide) (by decide)]
    have hmul : ((800 : ℤ) : ℚ) * (2 : ℚ) = ((1600 : ℤ) : ℚ) := by
      push_cast
      norm_num
    rw [hmul, py_trunc_intCast]
    decide
  · decide

/-- Claim C2, amended: for container total width W ≥ 500, height H > 1
and any nonzero aspect ratio A, the applied split position lies in
[250, W - 250] however far `H*A` would push it. -/
theorem sash_clamped_within_bounds_of_wide_container (W H : Int) (A : ℚ)
    (hH : 1 < H) (hA : A ≠ 0) (hW : 500 ≤ W) :
    ∃ s, adjust_aspect_ratio (some A) H W = some s ∧ 250 ≤ s ∧ s ≤ W - 250 := by
  refine ⟨_, adjust_closed_form A H W hA hH, ?_, ?_⟩ <;> omega

/-- Witness for the amended C2 at concrete in-range numbers. -/
theorem sash_clamped_within_bounds_witness :
    ∃ s, adjust_aspect_ratio (some 2) 800 1000 = some s ∧
      250 ≤ s ∧ s ≤ 1000 - 250 :=
  sash_clamped_within_bounds_of_wide_container 1000 800 2 (by decide)
    (by decide) (by decide)

theorem stop_recording_thread_state (st : RecSession) (env : StopEnv) :
    (stop_recording_thread st env).1 = update_recording_ui st false := by
  unfold stop_recording_thread
  split <;> rfl

theorem device_recording_path_ne_nil (ts : Line) :
    device_recording_path ts ≠ [] := by
  have hA : ("/sdcard/recording_".data : Line) ≠ [] := by decide
  simp [device_recording_path, List.append_eq_nil, hA]

/-- Claim C3: whenever the stop sequence starts with a live capture
process, it ends with the session idle (process handle and remote path
cleared, record control re-enabled) and both the pull command and the
remote-delete command are issued, whatever the wait outcome and whether
or not the pull succeeds. -/
theorem stop_live_recording_resets_idle_and_cleans_up
    (st : RecSession) (env : StopEnv) (hlive : live_recording st = true) :
    (stop_recording_thread st env).1.is_recording = false ∧
    (stop_recording_thread st env).1.recording_process = none ∧
    (stop_recording_thread st env).1.recording_device_path = [] ∧
    (stop_recording_thread st env).1.record_button_enabled = true ∧
    Act.exec_cmd (pull_cmd st) ∈ (stop_recording_thread st env).2 ∧
    Act.exec_cmd (rm_cmd st) ∈ (stop_recording_thread st env).2 := by
  rcases env with ⟨wo, pok, pout⟩
  cases wo <;> simp [stop_recording_thread, hlive, update_recording_ui]

/-- Witness for C3: a live recording, wait resolves normally, pull fails;
the session still resets and the delete command is still issued. -/
theorem stop_live_recording_resets_idle_and_cleans_up_witness :
    (stop_recording_thread st_live env_stop_pull_fails).1.is_recording = false ∧
    (stop_recording_thread st_live env_stop_pull_fails).1.recording_process = none ∧
    (stop_recording_thread st_live env_stop_pull_fails).1.recording_device_path = [] ∧
    (stop_recording_thread st_live env_stop_pull_fails).1.record_button_enabled = true ∧
    Act.exec_cmd (pull_cmd st_live) ∈ (stop_recording_thread st_live env_stop_pull_fails).2 ∧
    Act.exec_cmd (rm_cmd st_live) ∈ (stop_recording_thread st_live env_stop_pull_fails).2 :=
  stop_live_recording_resets_idle_and_cleans_up st_live env_stop_pull_fails (by decide)

/-- Claim C10: entering the stop sequence without a live capture process
emits exactly the two lines `INFO: Stopping recording...` and the single
`No active recording process found to stop` error, resets the session to
idle, and performs no kill, no pull, and no remote cleanup. -/
theorem stop_without_live_process_resets_without_cleanup
    (st : RecSession) (env : StopEnv) (hdead : live_recording st = false) :
    (stop_recording_thread st env).2 =
      [Act.log stopping_msg, Act.log no_active_msg] ∧
    ((stop_recording_thread st env).2.count (Act.log no_active_msg)) = 1 ∧
    (stop_recording_thread st env).1.is_recording = false ∧
    (stop_recording_thread st env).1.recording_process = none ∧
    (stop_recording_thread st env).1.recording_device_path = [] ∧
    (stop_recording_thread st env).1.record_button_enabled = true ∧
    (∀ c, Act.exec_cmd c ∉ (stop_recording_thread st env).2) ∧
    Act.kill_recording ∉ (stop_recording_thread st env).2 := by
  have htrace : (stop_recording_thread st env).2 =
      [Act.log stopping_msg, Act.log no_active_msg] := by
    simp [stop_recording_thread, hdead]
  have hstate := stop_recording_thread_state st env
  refine ⟨htrace, ?_, ?_, ?_, ?_, ?_, ?_, ?_⟩
  · rw [htrace]; decide
  · rw [hstate]; rfl
  · rw [hstate]; rfl
  · rw [hstate]; rfl
  · rw [hstate]; rfl
  · intro c; rw [htrace]; simp
  · rw [htrace]; simp

/-- Witness for C10: a capture process that already exited on its own. -/
theorem stop_without_live_process_resets_without_cleanup_witness :
    (stop_recording_thread st_dead env_stop_ok).2 =
      [Act.log stopping_msg, Act.log no_active_msg] ∧
    ((stop_recording_thread st_dead env_stop_ok).2.count (Act.log no_active_msg)) = 1 ∧
    (stop_recording_thread st_dead env_stop_ok).1.is_recording = false ∧
    (stop_recording_thread st_dead env_stop_ok).1.recording_process = none ∧
    (stop_recording_thread st_dead env_stop_ok).1.recording_device_path = [] ∧
    (stop_recording_thread st_dead env_stop_ok).1.record_button_enabled = true ∧
    Act.exec_cmd (pull_cmd st_dead) ∉ (stop_recording_thread st_dead env_stop_ok).2 ∧
    Act.exec_cmd (rm_cmd st_dead) ∉ (stop_recording_thread st_dead env_stop_ok).2 ∧
    Act.kill_recording ∉ (stop_recording_thread st_dead env_stop_ok).2 := by
  have h := stop_without_live_process_resets_without_cleanup st_dead env_stop_ok
    (by decide)
  exact ⟨h.1, h.2.1, h.2.2.1, h.2.2.2.1, h.2.2.2.2.1, h.2.2.2.2.2.1,
    h.2.2.2.2.2.2.1 (pull_cmd st_dead), h.2.2.2.2.2.2.1 (rm_cmd st_dead),
    h.2.2.2.2.2.2.2⟩

/-- Claim C5, counterexample: starting from an idle session with an empty
remote path, a start whose spawn fails leaves the session idle but with a
non-empty `recording_device_path` (the path is written before the spawn
and never cleared on failure), breaking the claimed biconditional. -/
theorem path_nonempty_while_idle_after_spawn_failure :
    path_iff_recording st_idle ∧
    (start_recording_thread st_idle env_start_fails).1.is_recording = false ∧
    (start_recording_thread st_idle env_start_fails).1.recording_device_path ≠ [] ∧
    ¬ path_iff_recording (start_recording_thread st_idle env_start_fails).1 := by
  refine ⟨by simp [path_iff_recording, st_idle], by decide, by decide, ?_⟩
  intro hiff
  have h1 : (start_recording_thread st_idle env_start_fails).1.recording_device_path ≠ [] := by decide
  have h2 : (start_recording_thread st_idle env_start_fails).1.is_recording = false := by decide
  rw [path_iff_recording] at hiff
  rw [h2] at hiff
  exact Bool.false_ne_true (hiff.mp h1)

/-- Claim C5, amended: a successful start and any stop re-establish the
biconditional (path non-empty iff recording), and the forward direction
(recording implies non-empty path) survives every operation; but a start
whose spawn fails, run from idle, leaves the state idle with a non-empty
path. -/
theorem path_state_invariant_partial :
    (∀ (st : RecSession) (env : StartEnv), env.spawn_ok = true →
      path_iff_recording (start_recording_thread st env).1) ∧
    (∀ (st : RecSession) (env : StopEnv),
      path_iff_recording (stop_recording_thread st env).1) ∧
    (∀ (st : RecSession) (env : StartEnv),
      (start_recording_thread st env).1.is_recording = true →
      (start_recording_thread st env).1.recording_device_path ≠ []) ∧
    (∀ (st : RecSession) (env : StopEnv),
      (stop_recording_thread st env).1.is_recording = true →
      (stop_recording_thread st env).1.recording_device_path ≠ []) ∧
    (∀ (st : RecSession) (env : StartEnv), st.is_recording = false →
      env.spawn_ok = false →
      (start_recording_thread st env).1.is_recording = false ∧
      (start_recording_thread st env).1.recording_device_path ≠ []) := by
  refine ⟨?_, ?_, ?_, ?_, ?_⟩
  · intro st env hok
    simp [start_recording_thread, hok, update_recording_ui, path_iff_recording,
      device_recording_path_ne_nil env.timestamp]
  · intro st env
    rw [stop_recording_thread_state]
    simp [update_recording_ui, path_iff_recording]
  · intro st env _
    rcases hok : env.spawn_ok with _ | _ <;>
      simp [start_recording_thread, hok, update_recording_ui,
        device_recording_path_ne_nil env.timestamp]
  · intro st env h
    rw [stop_recording_thread_state] at h
    simp [update_recording_ui] at h
  · intro st env hidle hfail
    simp [start_recording_thread, hfail, hidle,
      device_recording_path_ne_nil env.timestamp]

/-- Witness for the amended C5: a successful start from idle, a stop of
a live session, and a failed start from idle. -/
theorem path_state_invariant_partial_witness :
    path_iff_recording (start_recording_thread st_idle env_start_ok).1 ∧
    path_iff_recording (stop_recording_thread st_live env_stop_ok).1 ∧
    (start_recording_thread st_idle env_start_fails).1.is_recording = false ∧
    (start_recording_thread st_idle env_start_fails).1.recording_device_path ≠ [] := by
  have h := path_state_invariant_partial
  exact ⟨h.1 st_idle env_start_ok rfl, h.2.1 st_live env_stop_ok,
    (h.2.2.2.2 st_idle env_start_fails rfl rfl).1,
    (h.2.2.2.2 st_idle env_start_fails rfl rfl).2⟩

/-- Claim C4: a close request with an active recording produces the stop
trace in full, followed by the teardown actions; the stop trace never
contains a mirror-process termination or the window disposal, disposal
is always part of the teardown suffix, and with a live capture process
the stop trace contains the kill, the bounded wait, the pull and the
remote cleanup.  Without an active recording, the trace is the teardown
alone. -/
theorem close_orders_stop_before_teardown (st : RecSession) (env : CloseEnv)
    (hrec : st.is_recording = true) :
    (on_close false st env).2.2 =
      Act.log closing_stop_msg ::
        (stop_recording_thread (disable_controls st) env.stop_env).2 ++
        final_close_actions env.mirror_live env.mirror_wait_times_out ∧
    Act.destroy_window ∉
      (stop_recording_thread (disable_controls st) env.stop_env).2 ∧
    Act.terminate_mirror ∉
      (stop_recording_thread (disable_controls st) env.stop_env).2 ∧
    Act.destroy_window ∈
      final_close_actions env.mirror_live env.mirror_wait_times_out ∧
    (live_recording st = true →
      Act.kill_recording ∈
        (stop_recording_thread (disable_controls st) env.stop_env).2 ∧
      Act.wait_recording 10 ∈
        (stop_recording_thread (disable_controls st) env.stop_env).2 ∧
      Act.exec_cmd (pull_cmd (disable_controls st)) ∈
        (stop_recording_thread (disable_controls st) env.stop_env).2 ∧
      Act.exec_cmd (rm_cmd (disable_controls st)) ∈
        (stop_recording_thread (disable_controls st) env.stop_env).2) ∧
    (∀ (st2 : RecSession) (env2 : CloseEnv), st2.is_recording = false →
      (on_close false st2 env2).2.2 =
        final_close_actions env2.mirror_live env2.mirror_wait_times_out) := by
  have hlive_eq : live_recording (disable_controls st) = live_recording st := rfl
  refine ⟨?_, ?_, ?_, ?_, ?_, ?_⟩
  · simp [on_close, hrec]
  · rcases env with ⟨⟨wo, pok, pout⟩, ml, mt⟩
    by_cases h : live_recording (disable_controls st) = true
    · cases wo <;> simp [stop_recording_thread, h]
    · simp only [Bool.not_eq_true] at h
      simp [stop_recording_thread, h]
  · rcases env with ⟨⟨wo, pok, pout⟩, ml, mt⟩
    by_cases h : live_recording (disable_controls st) = true
    · cases wo <;> simp [stop_recording_thread, h]
    · simp only [Bool.not_eq_true] at h
      simp [stop_recording_thread, h]
  · cases hml : env.mirror_live <;> cases hmt : env.mirror_wait_times_out <;>
      simp [final_close_actions]
  · intro hlive
    rw [← hlive_eq] at hlive
    rcases env with ⟨⟨wo, pok, pout⟩, ml, mt⟩
    cases wo <;> simp [stop_recording_thread, hlive]
  · intro st2 env2 h2
    simp [on_close, h2]

/-- Witness for C4: a live recording whose pull fails, mirror process
still live; the trace is still stop-then-teardown with cleanup inside
the stop part. -/
theorem close_orders_stop_before_teardown_witness :
    (on_close false st_live env_close_sample).2.2 =
      Act.log closing_stop_msg ::
        (stop_recording_thread (disable_controls st_live)
          env_close_sample.stop_env).2 ++
        final_close_actions env_close_sample.mirror_live
          env_close_sample.mirror_wait_times_out ∧
    Act.destroy_window ∉
      (stop_recording_thread (disable_controls st_live)
        env_close_sample.stop_env).2 ∧
    Act.destroy_window ∈
      final_close_actions env_close_sample.mirror_live
        env_close_sample.mirror_wait_times_out ∧
    Act.exec_cmd (rm_cmd (disable_controls st_live)) ∈
      (stop_recording_thread (disable_controls st_live)
        env_close_sample.stop_env).2 := by
  have h := close_orders_stop_before_teardown st_live env_close_sample rfl
  exact ⟨h.1, h.2.1, h.2.2.2.1, (h.2.2.2.2.1 rfl).2.2.2⟩

theorem find_from_eq_none (polls : Nat → Option Nat) :
    ∀ (fuel i : Nat), (∀ j, i ≤ j → j < i + fuel → polls j = none) →
    find_from polls i fuel = none := by
  intro fuel
  induction fuel with
  | zero => intro i _; rfl
  | succ n ih =>
    intro i h
    have h0 : polls i = none := h i le_rfl (by omega)
    simp only [find_from, h0]
    exact ih (i + 1) (fun j hj1 hj2 => h j (by omega) (by omega))

theorem find_from_eq_some (polls : Nat → Option Nat) :
    ∀ (fuel i k hwnd : Nat), i ≤ k → k < i + fuel → polls k = some hwnd →
    (∀ j, i ≤ j → j < k → polls j = none) →
    find_from polls i fuel = some (hwnd, k) := by
  intro fuel
  induction fuel with
  | zero =>
    intro i k hwnd h1 h2 _ _
    exact absurd (h1.trans_lt h2) (by omega)
  | succ n ih =>
    intro i k hwnd h1 h2 h3 h4
    by_cases hik : i = k
    · subst hik
      simp [find_from, h3]
    · have hpi : polls i = none := h4 i le_rfl (by omega)
      simp only [find_from, hpi]
      exact ih (i + 1) k hwnd (by omega) (by omega) h3
        (fun j hj1 hj2 => h4 j (by omega) hj2)

/-- Claim C6: if no window with the session tag appears within the
15-second polling window, the locator emits exactly one
"could not find window" line and performs no embed and no process
signal; if the tag appears at some poll before the timeout, the loop
stops at that poll and schedules exactly the embed step. -/
theorem window_discovery_single_error_or_embed (title : Line)
    (polls : Nat → Option Nat) :
    ((∀ i, i < max_find_polls → polls i = none) →
      find_and_embed_window title polls =
        [Act.log (could_not_find_msg title)] ∧
      ((find_and_embed_window title polls).count
        (Act.log (could_not_find_msg title))) = 1 ∧
      (∀ hw, Act.schedule_embed hw ∉ find_and_embed_window title polls) ∧
      Act.terminate_mirror ∉ find_and_embed_window title polls ∧
      Act.kill_mirror ∉ find_and_embed_window title polls ∧
      Act.kill_recording ∉ find_and_embed_window title polls) ∧
    (∀ k hwnd, k < max_find_polls → polls k = some hwnd →
      (∀ i, i < k → polls i = none) →
      find_from polls 0 max_find_polls = some (hwnd, k) ∧
      find_and_embed_window title polls = [Act.schedule_embed hwnd]) := by
  constructor
  · intro hall
    have hnone : find_from polls 0 max_find_polls = none :=
      find_from_eq_none polls max_find_polls 0
        (fun j _ hj2 => hall j (by omega))
    have htrace : find_and_embed_window title polls =
        [Act.log (could_not_find_msg title)] := by
      simp [find_and_embed_window, hnone]
    refine ⟨htrace, ?_, ?_, ?_, ?_, ?_⟩
    · rw [htrace]; simp
    · intro hw; rw [htrace]; simp
    · rw [htrace]; simp
    · rw [htrace]; simp
    · rw [htrace]; simp
  · intro k hwnd hk hsome hbefore
    have hfound : find_from polls 0 max_find_polls = some (hwnd, k) :=
      find_from_eq_some polls max_find_polls 0 k hwnd (Nat.zero_le k)
        (by omega) hsome (fun j _ hj2 => hbefore j hj2)
    exact ⟨hfound, by simp [find_and_embed_window, hfound]⟩

/-- Witness for C6: a registry where the window never appears, and one
where it appears with handle 42 at the fourth poll. -/
theorem window_discovery_single_error_or_embed_witness :
    find_and_embed_window sample_title polls_never =
      [Act.log (could_not_find_msg sample_title)] ∧
    find_from polls_at_three 0 max_find_polls = some (42, 3) ∧
    find_and_embed_window sample_title polls_at_three =
      [Act.schedule_embed 42] := by
  have h1 := (window_discovery_single_error_or_embed sample_title polls_never).1
    (fun i _ => rfl)
  have h2 := (window_discovery_single_error_or_embed sample_title polls_at_three).2
    3 42 (by decide) rfl (by decide)
  exact ⟨h1.1, h2.1, h2.2⟩

/-- Claim C9: `execute_command` is total over its error model, always
returning a `(success, output)` pair: return code 0 yields the stripped
combined output with success; a nonzero return code yields failure with
the device-not-found message, the daemon message, or the generic message
(checked in that order); a missing executable and any other exception
yield failure with their fixed messages; success holds exactly when the
return code is 0. -/
theorem execute_command_total_characterization :
    (∀ (rc : Int) (out err : Line), rc = 0 →
      execute_command (.completed rc out err) =
        (true, strip_chars (out ++ err))) ∧
    (∀ (rc : Int) (out err : Line), rc ≠ 0 →
      contains_sub "device not found".data (out ++ err) = true →
      execute_command (.completed rc out err) =
        (false, "Error: Device not found.".data)) ∧
    (∀ (rc : Int) (out err : Line), rc ≠ 0 →
      contains_sub "device not found".data (out ++ err) = false →
      contains_sub "* daemon not running".data (out ++ err) = true →
      execute_command (.completed rc out err) =
        (false, "ADB daemon is not responding. Please wait...".data)) ∧
    (∀ (rc : Int) (out err : Line), rc ≠ 0 →
      contains_sub "device not found".data (out ++ err) = false →
      contains_sub "* daemon not running".data (out ++ err) = false →
      execute_command (.completed rc out err) =
        (false, "Error executing command:\n".data ++ strip_chars (out ++ err))) ∧
    (execute_command .file_not_found =
      (false,
       ("Error: Command or executable not found. Check your system".data ++ [squote] ++ "s PATH.".data))) ∧
    (∀ msg : Line, execute_command (.raised msg) =
      (false, "An unexpected error occurred: ".data ++ msg)) ∧
    (∀ (rc : Int) (out err : Line),
      (execute_command (.completed rc out err)).1 = true ↔ rc = 0) := by
  refine ⟨?_, ?_, ?_, ?_, rfl, fun _ => rfl, ?_⟩
  · intro rc out err h
    simp [execute_command, h]
  · intro rc out err h h1
    simp [execute_command, h, h1]
  · intro rc out err h h1 h2
    simp [execute_command, h, h1, h2]
  · intro rc out err h h1 h2
    simp [execute_command, h, h1, h2]
  · intro rc out err
    by_cases h : rc = 0
    · simp [execute_command, h]
    · cases h1 : contains_sub "device not found".data (out ++ err) <;>
        cases h2 : contains_sub "* daemon not running".data (out ++ err) <;>
        simp [execute_command, h, h1, h2]

/-- Witness for C9: a successful command, and a failing one whose output
mentions a missing device. -/
theorem execute_command_total_characterization_witness :
    execute_command (.completed 0 "ok ".data []) =
      (true, strip_chars ("ok ".data ++ [])) ∧
    execute_command (.completed 1 "adb: device not found".data []) =
      (false, "Error: Device not found.".data) ∧
    execute_command (.raised "boom".data) =
      (false, "An unexpected error occurred: ".data ++ "boom".data) :=
  ⟨execute_command_total_characterization.1 0 "ok ".data [] rfl,
   execute_command_total_characterization.2.1 1 "adb: device not found".data []
     (by decide) (by decide),
   execute_command_total_characterization.2.2.2.2.2.1 "boom".data⟩
